import Mathlib

/-
  Verification of the deep-search agent core (Jinksi/ai-hero-deepsearch-course).

  Shallow embedding of the orchestration core:
  - SystemContext (src/system-context.ts, and the variant in the unnamed
    source file part_003 that adds feedback/token accounting),
  - the query rewriter schema validation (src/deep-search.ts),
  - the bulk crawler with retry/backoff (src/scraper.ts),
  - the summarization batch (src/summarize-url.ts),
  - the searchAndScrape pipeline and the agent loop (unnamed part_013).

  External collaborators (search provider, scrape fetch primitive,
  generation provider) are modelled as explicit oracle function parameters;
  everything the repository computes from their outputs is translated
  directly from the TypeScript source.
-/

namespace DeepSearch

/-- One result item inside a search record, as produced by the
searchAndScrape pipeline (part_013): date, title, url, snippet,
post-summarizer summary, favicon. -/
structure ResultItem where
  date : String
  title : String
  url : String
  snippet : String
  summary : String
  favicon : String
deriving Repr, DecidableEq

/-- SearchHistoryEntry of system-context.ts: one query with its results. -/
structure SearchRecord where
  query : String
  results : List ResultItem
deriving Repr, DecidableEq

/-- A chat message (role and flattened text content). -/
structure ChatMessage where
  role : String
  content : String
deriving Repr, DecidableEq

/-- The optional user location of system-context.ts; every field is
optional, mirroring the TypeScript optional string fields. -/
structure UserLocation where
  longitude : Option String
  latitude : Option String
  city : Option String
  country : Option String
deriving Repr, DecidableEq

/-- The mutable state container of system-context.ts (fields of the
part_003 variant, which adds mostRecentFeedback to the named file). -/
structure SystemContext where
  step : Nat
  searchHistory : List SearchRecord
  messages : List ChatMessage
  userLocation : Option UserLocation
  mostRecentFeedback : Option String
deriving Repr, DecidableEq

/-- shouldStop of src/system-context.ts lines 56-58: step >= 10. -/
def SystemContext.shouldStop (ctx : SystemContext) : Bool :=
  decide (ctx.step ≥ 10)

/-- shouldStop of the SystemContext variant in unnamed part_003
lines 74-76: it returns step >= 2, not step >= 10. -/
def shouldStopPart003 (ctx : SystemContext) : Bool :=
  decide (ctx.step ≥ 2)

/-- incrementStep: step++. -/
def SystemContext.incrementStep (ctx : SystemContext) : SystemContext :=
  { ctx with step := ctx.step + 1 }

/-- reportSearch: push one record onto searchHistory. -/
def SystemContext.reportSearch (ctx : SystemContext) (search : SearchRecord) :
    SystemContext :=
  { ctx with searchHistory := ctx.searchHistory ++ [search] }

/-- updateFeedback: replace mostRecentFeedback. -/
def SystemContext.updateFeedback (ctx : SystemContext) (feedback : String) :
    SystemContext :=
  { ctx with mostRecentFeedback := some feedback }

/-- JavaScript string falsiness for an optional string field:
undefined and the empty string are falsy, everything else truthy. -/
def strFalsy : Option String → Bool
  | none => true
  | some s => s == ""

/-- getUserLocationContext of system-context.ts: empty string when the
location is absent or any of latitude, longitude, city, country is
falsy (missing or empty); otherwise the rendered location block. -/
def SystemContext.getUserLocationContext (ctx : SystemContext) : String :=
  match ctx.userLocation with
  | none => ""
  | some loc =>
    if strFalsy loc.latitude || strFalsy loc.longitude ||
        strFalsy loc.city || strFalsy loc.country then ""
    else
      "About the origin of user\x27s request:\n- lat: " ++ loc.latitude.getD "" ++
        "\n- lon: " ++ loc.longitude.getD "" ++
        "\n- city: " ++ loc.city.getD "" ++
        "\n- country: " ++ loc.country.getD ""

/-! ## Scraper (src/scraper.ts) -/

/-- DEFAULT_MAX_RETRIES of scraper.ts. -/
def DEFAULT_MAX_RETRIES : Nat := 3

/-- MIN_DELAY_MS of scraper.ts. -/
def MIN_DELAY_MS : Nat := 500

/-- MAX_DELAY_MS of scraper.ts. -/
def MAX_DELAY_MS : Nat := 8000

/-- CrawlResponse of scraper.ts: success with data, or failure with an
error string. -/
inductive CrawlResponse where
  | success (data : String)
  | failure (error : String)
deriving Repr, DecidableEq

/-- The success flag of a CrawlResponse. -/
def CrawlResponse.isSuccess : CrawlResponse → Bool
  | .success _ => true
  | .failure _ => false

/-- The error string of a failed CrawlResponse (empty for a success;
the TypeScript code only reads it after narrowing to the failure case). -/
def CrawlResponse.errorText : CrawlResponse → String
  | .success _ => ""
  | .failure e => e

/-- The outcome of one fetch attempt against the scrape provider:
an ok (2xx) response with body text, a non-2xx HTTP response, or a
thrown network error.  This is the oracle for the try/catch around
fetch in crawlWebsite. -/
inductive AttemptOutcome where
  | ok (text : String)
  | httpError (status : Nat) (statusText : String)
  | networkError (msg : String)
deriving Repr, DecidableEq

/-- Whether an attempt outcome is an ok response. -/
def AttemptOutcome.isOk : AttemptOutcome → Bool
  | .ok _ => true
  | .httpError _ _ => false
  | .networkError _ => false

/-- The backoff delay scraper.ts sleeps after a failed attempt, with
the attempts counter already incremented:
Math.min(MIN_DELAY_MS * Math.pow(2, attempts), MAX_DELAY_MS). -/
def crawlDelay (attempts : Nat) : Nat :=
  min (MIN_DELAY_MS * 2 ^ attempts) MAX_DELAY_MS

/-- The observable outcome of one crawlWebsite call: its returned
CrawlResponse, the number of fetch attempts actually performed, and the
backoff delays slept between attempts, in order. -/
structure CrawlRun where
  response : CrawlResponse
  attemptsMade : Nat
  delays : List Nat
deriving Repr, DecidableEq

/-- The while loop of crawlWebsite (scraper.ts lines 87-139), with
fuel = maxRetries - attempts, so the loop guard attempts < maxRetries
is fuel > 0.  fetch k is the outcome of the (k+1)-th fetch attempt. -/
def crawlWebsiteAux (fetch : Nat → AttemptOutcome) (maxRetries : Nat) :
    Nat → Nat → CrawlRun
  | 0, attempts =>
    { response := .failure "Maximum retry attempts reached",
      attemptsMade := attempts, delays := [] }
  | fuel + 1, attempts =>
    match fetch attempts with
    | .ok text =>
      { response := .success text, attemptsMade := attempts + 1, delays := [] }
    | .httpError status statusText =>
      if attempts + 1 = maxRetries then
        { response := .failure ("Failed to fetch website after " ++
            toString maxRetries ++ " attempts: " ++ toString status ++ " " ++
            statusText),
          attemptsMade := attempts + 1, delays := [] }
      else
        let rest := crawlWebsiteAux fetch maxRetries fuel (attempts + 1)
        { rest with delays := crawlDelay (attempts + 1) :: rest.delays }
    | .networkError msg =>
      if attempts + 1 = maxRetries then
        { response := .failure ("Network error after " ++
            toString maxRetries ++ " attempts: " ++ msg),
          attemptsMade := attempts + 1, delays := [] }
      else
        let rest := crawlWebsiteAux fetch maxRetries fuel (attempts + 1)
        { rest with delays := crawlDelay (attempts + 1) :: rest.delays }

/-- crawlWebsite of scraper.ts: retry loop starting at attempts = 0. -/
def crawlWebsite (fetch : Nat → AttemptOutcome) (maxRetries : Nat) : CrawlRun :=
  crawlWebsiteAux fetch maxRetries maxRetries 0

/-- One entry of the results array of a bulk crawl response. -/
structure UrlResult where
  url : String
  result : CrawlResponse
deriving Repr, DecidableEq

/-- BulkCrawlResponse of scraper.ts: the success and failure shapes
share the results array; only the failure shape carries an error. -/
structure BulkCrawlResponse where
  success : Bool
  results : List UrlResult
  error : Option String
deriving Repr, DecidableEq

/-- bulkCrawlWebsites of scraper.ts: crawl every url (crawl is the
per-url outcome of crawlWebsite, each url fetched independently),
aggregate success = every result succeeded, and on failure also build
the joined error string. -/
def bulkCrawlWebsites (crawl : String → CrawlResponse) (urls : List String) :
    BulkCrawlResponse :=
  let results := urls.map fun url => { url := url, result := crawl url : UrlResult }
  let allSuccessful := results.all fun r => r.result.isSuccess
  if allSuccessful then
    { success := true, results := results, error := none }
  else
    let errors := String.intercalate "\n"
      ((results.filter fun r => !r.result.isSuccess).map
        fun r => r.url ++ ": " ++ r.result.errorText)
    { success := false, results := results,
      error := some ("Failed to crawl some websites:\n" ++ errors) }

/-! ## Summarizer (src/summarize-url.ts) -/

/-- SummarizeUrlInput of summarize-url.ts (without the trace id, which
only feeds telemetry). -/
structure SummarizeUrlInput where
  query : String
  url : String
  title : String
  snippet : String
  date : String
  scrapedContent : String
  conversationHistory : String
deriving Repr, DecidableEq

/-- SummarizeUrlResult of summarize-url.ts. -/
structure SummarizeUrlResult where
  url : String
  title : String
  date : String
  snippet : String
  summary : String
deriving Repr, DecidableEq

/-- The fallback result built in the per-item catch of summarizeURLs:
the item metadata with a summary that truncates the raw scraped text to
its first 500 characters. -/
def fallbackSummary (input : SummarizeUrlInput) : SummarizeUrlResult :=
  { url := input.url, title := input.title, date := input.date,
    snippet := input.snippet,
    summary := "Failed to generate summary for this source. Original content preview: " ++
      input.scrapedContent.take 500 ++ "..." }

/-- The per-item body of the summarizeURLs map: try the (cached)
summarizeURL call, catching a thrown error (summarize input = none)
with the fallback summary. -/
def summarizeOne (summarize : SummarizeUrlInput → Option String)
    (input : SummarizeUrlInput) : SummarizeUrlResult :=
  match summarize input with
  | some text =>
    { url := input.url, title := input.title, date := input.date,
      snippet := input.snippet, summary := text }
  | none => fallbackSummary input

/-- summarizeURLs of summarize-url.ts: map over the inputs; summarize
is the generation-provider oracle (none = the call threw), and a failed
item receives the fallback summary instead of aborting the batch. -/
def summarizeURLs (summarize : SummarizeUrlInput → Option String)
    (inputs : List SummarizeUrlInput) : List SummarizeUrlResult :=
  inputs.map (summarizeOne summarize)

/-! ## Query rewriter schema (src/deep-search.ts) -/

/-- PlanResult produced by the query rewriter. -/
structure PlanResult where
  plan : String
  queries : List String
deriving Repr, DecidableEq

/-- queryRewriterSchema of deep-search.ts lines 110-123: zod validates
queries as an array of strings with .min(1).max(5); no other constraint
(in particular no distinctness constraint) is declared. -/
def queryRewriterSchemaCheck (r : PlanResult) : Bool :=
  decide (1 ≤ r.queries.length) && decide (r.queries.length ≤ 5)

/-- A failure of the structured-generation call: either the provider
itself failed, or its raw response violated the declared schema. -/
inductive GenError where
  | providerError (msg : String)
  | schemaViolation
deriving Repr, DecidableEq

/-- generateObject applied to queryRewriterSchema: the raw provider
response (or provider error) is validated against the schema; a
violation is thrown, never returned. -/
def generateObjectPlan (raw : Except String PlanResult) :
    Except GenError PlanResult :=
  match raw with
  | .error e => .error (.providerError e)
  | .ok r =>
    if queryRewriterSchemaCheck r then .ok r else .error .schemaViolation

/-- queryRewriter of deep-search.ts lines 288-377: it returns
result.object of the generateObject call unchanged. -/
def queryRewriter (raw : Except String PlanResult) :
    Except GenError PlanResult :=
  generateObjectPlan raw

/-! ## searchAndScrape pipeline (unnamed part_013) -/

/-- One organic result from the search provider (serper). -/
structure OrganicResult where
  title : String
  link : String
  snippet : String
  date : Option String
deriving Repr, DecidableEq

/-- One entry of searchResultsFormatted in searchAndScrape. -/
structure FormattedResult where
  title : String
  link : String
  snippet : String
  date : String
  favicon : String
deriving Repr, DecidableEq

/-- The favicon url derived from a link host; hostname is the oracle
for the URL-parsing of new URL(link).hostname. -/
def faviconFor (hostname : String → String) (link : String) : String :=
  "https://www.google.com/s2/favicons?domain=" ++ hostname link

/-- searchResultsFormatted of searchAndScrape: keep title, link and
snippet, default a missing date to "Unknown date", derive the favicon. -/
def formatSearchResults (hostname : String → String)
    (organic : List OrganicResult) : List FormattedResult :=
  organic.map fun r =>
    { title := r.title, link := r.link, snippet := r.snippet,
      date := r.date.getD "Unknown date",
      favicon := faviconFor hostname r.link }

/-- One scraped page as produced by scrapeUrl. -/
structure ScrapePage where
  url : String
  content : String
deriving Repr, DecidableEq

/-- ScrapeResult of part_013: the success shape carries pages, the
failure shape carries the error and the successfully scraped subset
(the partialResults field of the source). -/
inductive ScrapeResult where
  | ok (pages : List ScrapePage)
  | err (error : String) (recoveredPages : List ScrapePage)
deriving Repr, DecidableEq

/-- The page list the pairing step searches: pages in the success
shape, partialResults in the failure shape. -/
def ScrapeResult.lookupList : ScrapeResult → List ScrapePage
  | .ok pages => pages
  | .err _ recoveredPages => recoveredPages

/-- Extract the page of one bulk result when it succeeded. -/
def UrlResult.toPage (r : UrlResult) : Option ScrapePage :=
  match r.result with
  | .success data => some { url := r.url, content := data }
  | .failure _ => none

/-- scrapeUrl of part_013: wrap bulkCrawlWebsites; on success map every
result to a page, on failure keep only the successful results as
partialResults together with the aggregate error. -/
def scrapeUrl (crawl : String → CrawlResponse) (urls : List String) :
    ScrapeResult :=
  let result := bulkCrawlWebsites crawl urls
  if result.success then
    .ok (result.results.filterMap UrlResult.toPage)
  else
    .err (result.error.getD "") (result.results.filterMap UrlResult.toPage)

/-- One entry of combinedResults in searchAndScrape. -/
structure CombinedResult where
  date : String
  title : String
  url : String
  snippet : String
  scrapedContent : String
  favicon : String
deriving Repr, DecidableEq

/-- combinedResults of searchAndScrape: pair each formatted search
result with its scraped content by url, substituting the sentinel
"Failed to scrape content" when no page with that url was scraped. -/
def combineResults (pages : List ScrapePage) (formatted : List FormattedResult) :
    List CombinedResult :=
  formatted.map fun sr =>
    { date := sr.date, title := sr.title, url := sr.link,
      snippet := sr.snippet,
      scrapedContent :=
        ((pages.find? fun p => p.url == sr.link).map ScrapePage.content).getD
          "Failed to scrape content",
      favicon := sr.favicon }

/-- summarizationInputs of searchAndScrape: one summarizer input per
combined result. -/
def buildSummarizeInputs (query conversationHistory : String)
    (combined : List CombinedResult) : List SummarizeUrlInput :=
  combined.map fun r =>
    { query := query, url := r.url, title := r.title, snippet := r.snippet,
      date := r.date, scrapedContent := r.scrapedContent,
      conversationHistory := conversationHistory }

/-- The summarizer inputs searchAndScrape hands to summarizeURLs, as a
function of the search results and the scrape outcomes. -/
def searchAndScrapeInputs (hostname : String → String)
    (crawl : String → CrawlResponse) (query conversationHistory : String)
    (organic : List OrganicResult) : List SummarizeUrlInput :=
  let formatted := formatSearchResults hostname organic
  let urls := formatted.map FormattedResult.link
  let scrapeResult := scrapeUrl crawl urls
  buildSummarizeInputs query conversationHistory
    (combineResults scrapeResult.lookupList formatted)

/-- searchAndScrape of part_013 lines 39-122: search, scrape, pair by
url, summarize all results in parallel, and zip the summaries back
onto their metadata in the original search order. -/
def searchAndScrape (hostname : String → String)
    (crawl : String → CrawlResponse)
    (summarize : SummarizeUrlInput → Option String)
    (query conversationHistory : String)
    (organic : List OrganicResult) : SearchRecord :=
  let summaries := summarizeURLs summarize
    (searchAndScrapeInputs hostname crawl query conversationHistory organic)
  { query := query,
    results := summaries.map fun s =>
      { date := s.date, title := s.title, url := s.url, snippet := s.snippet,
        summary := s.summary, favicon := faviconFor hostname s.url } }

/-! ## Agent loop (unnamed part_013, runAgentLoop) -/

/-- The decision enum of the decision maker ("continue" rendered as
cont, since continue is a reserved word). -/
inductive DecisionVerdict where
  | cont
  | answer
deriving Repr, DecidableEq

/-- Decision of deep-search.ts decisionSchema. -/
structure Decision where
  decision : DecisionVerdict
  reasoning : String
  feedback : String
deriving Repr, DecidableEq

/-- One invocation of answerQuestion: the context it receives and the
isFinal flag. -/
structure AnswerCall where
  ctx : SystemContext
  isFinal : Bool
deriving Repr, DecidableEq

/-- The observable outcome of one runAgentLoop call: how many loop-body
iterations ran, and the final answerQuestion invocation. -/
structure LoopRun where
  iterations : Nat
  answer : AnswerCall
deriving Repr, DecidableEq

/-- Step 2 of a planning round in runAgentLoop (part_013 lines
197-255): run searchAndScrape per planned query, settle all branches
(Promise.allSettled), keep the fulfilled results and report each of
them to the context; rejected branches are only logged.  pipeline q is
the settled outcome of the full per-query pipeline. -/
def agentRound (plan : PlanResult)
    (pipeline : String → Except String SearchRecord)
    (ctx : SystemContext) : SystemContext :=
  let searchResults := plan.queries.map pipeline
  let successfulResults := searchResults.filterMap Except.toOption
  successfulResults.foldl SystemContext.reportSearch ctx

/-- The while loop of runAgentLoop (part_013 lines 170-330), with
fuel bounding the recursion (the loop itself is bounded by shouldStop,
whose threshold in the named system-context.ts is 10): while not
shouldStop, plan, run the round, decide; on an answer verdict call
answerQuestion with isFinal = false, otherwise increment the step and
continue; once shouldStop holds, call answerQuestion with
isFinal = true.  The plan, pipeline and decider oracles are indexed by
the current step. -/
def runAgentLoopAux (plan : Nat → PlanResult)
    (pipeline : Nat → String → Except String SearchRecord)
    (decider : Nat → Decision) :
    Nat → SystemContext → Nat → LoopRun
  | 0, ctx, iters =>
    { iterations := iters, answer := { ctx := ctx, isFinal := true } }
  | fuel + 1, ctx, iters =>
    if ctx.shouldStop then
      { iterations := iters, answer := { ctx := ctx, isFinal := true } }
    else
      let ctx1 := agentRound (plan ctx.step) (pipeline ctx.step) ctx
      let d := decider ctx.step
      let ctx2 := ctx1.updateFeedback d.feedback
      if d.decision = DecisionVerdict.answer then
        { iterations := iters + 1, answer := { ctx := ctx2, isFinal := false } }
      else
        runAgentLoopAux plan pipeline decider fuel ctx2.incrementStep (iters + 1)

/-- runAgentLoop of part_013: start the loop on the given context.
The fuel 10 - step + 1 dominates the number of remaining iterations,
since each continuing iteration increments the step and the loop stops
at step 10. -/
def runAgentLoop (plan : Nat → PlanResult)
    (pipeline : Nat → String → Except String SearchRecord)
    (decider : Nat → Decision) (ctx : SystemContext) : LoopRun :=
  runAgentLoopAux plan pipeline decider (10 - ctx.step + 1) ctx 0

end DeepSearch

namespace DeepSearch

/-- C1: the named src/system-context.ts has shouldStop with threshold 10
(false at step 2), but the live variant in part_003, whose feedback
accessors deep-search.ts requires, returns true already at step 2 even
though 2 < 10 and the callers own log lines announce a limit of 10. -/
theorem shouldStop_threshold_divergence :
    SystemContext.shouldStop
      { step := 2, searchHistory := [], messages := [],
        userLocation := none, mostRecentFeedback := none } = false ∧
    shouldStopPart003
      { step := 2, searchHistory := [], messages := [],
        userLocation := none, mostRecentFeedback := none } = true ∧
    ¬ ((2 : Nat) ≥ 10) := by
  refine ⟨rfl, rfl, by omega⟩

/-- A string that starts with a nonempty string is not empty. -/
theorem append_ne_empty_left (a b : String) (ha : 0 < a.length) :
    a ++ b ≠ "" := by
  intro h
  have h2 := congrArg String.length h
  rw [String.length_append] at h2
  have h3 : ("" : String).length = 0 := rfl
  omega

/-- C10: getUserLocationContext is all-or-nothing: it returns the empty
string when the user location is absent or any of latitude, longitude,
city, country is missing or empty, and renders the (nonempty) location
block exactly when all four are present and nonempty. -/
theorem getUserLocationContext_all_or_nothing :
    (∀ ctx : SystemContext, ctx.userLocation = none →
      ctx.getUserLocationContext = "") ∧
    (∀ (ctx : SystemContext) (loc : UserLocation), ctx.userLocation = some loc →
      (strFalsy loc.latitude || strFalsy loc.longitude || strFalsy loc.city ||
        strFalsy loc.country) = true →
      ctx.getUserLocationContext = "") ∧
    (∀ (ctx : SystemContext) (loc : UserLocation), ctx.userLocation = some loc →
      (strFalsy loc.latitude || strFalsy loc.longitude || strFalsy loc.city ||
        strFalsy loc.country) = false →
      ctx.getUserLocationContext =
        "About the origin of user\x27s request:\n- lat: " ++ loc.latitude.getD "" ++
          "\n- lon: " ++ loc.longitude.getD "" ++
          "\n- city: " ++ loc.city.getD "" ++
          "\n- country: " ++ loc.country.getD "" ∧
      ctx.getUserLocationContext ≠ "") := by
  refine ⟨?_, ?_, ?_⟩
  · intro ctx h
    simp [SystemContext.getUserLocationContext, h]
  · intro ctx loc h hf
    simp [SystemContext.getUserLocationContext, h, hf]
  · intro ctx loc h hf
    have hout : ctx.getUserLocationContext =
        "About the origin of user\x27s request:\n- lat: " ++ loc.latitude.getD "" ++
          "\n- lon: " ++ loc.longitude.getD "" ++
          "\n- city: " ++ loc.city.getD "" ++
          "\n- country: " ++ loc.country.getD "" := by
      simp [SystemContext.getUserLocationContext, h, hf]
    refine ⟨hout, ?_⟩
    rw [hout]
    simp only [String.append_assoc]
    exact append_ne_empty_left _ _ (by decide)

/-- Witness for C10: a fully populated location renders a nonempty
block; blanking one field yields the empty string. -/
theorem getUserLocationContext_all_or_nothing_witness :
    SystemContext.getUserLocationContext
      { step := 0, searchHistory := [], messages := [],
        userLocation := some
          { longitude := some "151.2", latitude := some "-33.9",
            city := some "Sydney", country := some "Australia" },
        mostRecentFeedback := none } ≠ "" ∧
    SystemContext.getUserLocationContext
      { step := 0, searchHistory := [], messages := [],
        userLocation := some
          { longitude := some "151.2", latitude := some "",
            city := some "Sydney", country := some "Australia" },
        mostRecentFeedback := none } = "" := by
  constructor
  · exact (getUserLocationContext_all_or_nothing.2.2 _
      { longitude := some "151.2", latitude := some "-33.9",
        city := some "Sydney", country := some "Australia" } rfl rfl).2
  · exact getUserLocationContext_all_or_nothing.2.1 _
      { longitude := some "151.2", latitude := some "",
        city := some "Sydney", country := some "Australia" } rfl rfl

/-- C4: bulkCrawlWebsites returns one outcome per input url, in input
order and in both aggregate shapes; the aggregate success flag is true
iff every individual url succeeded; and each url's entry is determined
by that url's own fetch alone. -/
theorem bulkCrawlWebsites_spec (crawl : String → CrawlResponse)
    (urls : List String) :
    (bulkCrawlWebsites crawl urls).results.map UrlResult.url = urls ∧
    ((bulkCrawlWebsites crawl urls).success = true ↔
      ∀ u ∈ urls, (crawl u).isSuccess = true) ∧
    (∀ (i : Nat) (u : String), urls[i]? = some u →
      (bulkCrawlWebsites crawl urls).results[i]? =
        some ({ url := u, result := crawl u } : UrlResult)) := by
  have hres : (bulkCrawlWebsites crawl urls).results =
      urls.map fun u => { url := u, result := crawl u : UrlResult } := by
    unfold bulkCrawlWebsites
    by_cases h : (urls.map fun u =>
        { url := u, result := crawl u : UrlResult }).all
          (fun r => r.result.isSuccess) <;> simp [h]
  have hsuc : (bulkCrawlWebsites crawl urls).success =
      (urls.map fun u => { url := u, result := crawl u : UrlResult }).all
        (fun r => r.result.isSuccess) := by
    unfold bulkCrawlWebsites
    by_cases h : (urls.map fun u =>
        { url := u, result := crawl u : UrlResult }).all
          (fun r => r.result.isSuccess) <;> simp [h]
  refine ⟨?_, ?_, ?_⟩
  · rw [hres]
    simp [List.map_map, Function.comp_def]
  · rw [hsuc]
    simp [List.all_map, List.all_eq_true]
  · intro i u h
    rw [hres]
    simp [List.getElem?_map, h]

/-- Witness for C4: one failing url of two flips the aggregate flag
while both outcomes stay listed. -/
theorem bulkCrawlWebsites_spec_witness :
    (bulkCrawlWebsites
        (fun u => if u == "http://a" then .failure "boom" else .success "ok")
        ["http://a", "http://b"]).results.map UrlResult.url =
      ["http://a", "http://b"] ∧
    ((bulkCrawlWebsites
        (fun u => if u == "http://a" then .failure "boom" else .success "ok")
        ["http://a", "http://b"]).success = true ↔
      ∀ u ∈ ["http://a", "http://b"],
        ((fun u => if u == "http://a" then CrawlResponse.failure "boom"
          else CrawlResponse.success "ok") u).isSuccess = true) ∧
    (bulkCrawlWebsites
        (fun u => if u == "http://a" then .failure "boom" else .success "ok")
        ["http://a", "http://b"]).results[1]? =
      some ({ url := "http://b",
              result :=
                (fun u => if u == "http://a" then CrawlResponse.failure "boom"
                  else CrawlResponse.success "ok") "http://b" } : UrlResult) :=
  ⟨(bulkCrawlWebsites_spec _ _).1, (bulkCrawlWebsites_spec _ _).2.1,
    (bulkCrawlWebsites_spec
      (fun u => if u == "http://a" then .failure "boom" else .success "ok")
      ["http://a", "http://b"]).2.2 1 "http://b" rfl⟩

/-- C6: summarizeURLs returns exactly one result per input, a failed
item receives the fallback summary built from the first 500 characters
of its raw scraped text, and no failure aborts the batch. -/
theorem summarizeURLs_batch_spec (summarize : SummarizeUrlInput → Option String)
    (inputs : List SummarizeUrlInput) :
    (summarizeURLs summarize inputs).length = inputs.length ∧
    (∀ (i : Nat) (inp : SummarizeUrlInput), inputs[i]? = some inp →
      summarize inp = none →
      (summarizeURLs summarize inputs)[i]? = some (fallbackSummary inp)) ∧
    (∀ inp : SummarizeUrlInput, (fallbackSummary inp).summary =
      "Failed to generate summary for this source. Original content preview: " ++
        inp.scrapedContent.take 500 ++ "...") := by
  refine ⟨by simp [summarizeURLs], ?_, fun inp => rfl⟩
  intro i inp h hn
  simp [summarizeURLs, List.getElem?_map, h, summarizeOne, hn]

/-- Witness for C6: a one-element batch whose summarization throws
still returns one entry, carrying the truncated fallback. -/
theorem summarizeURLs_batch_spec_witness :
    (summarizeURLs (fun _ => none)
      [{ query := "q", url := "u", title := "t", snippet := "s", date := "d",
         scrapedContent := "raw content", conversationHistory := "" }])[0]? =
      some (fallbackSummary
        { query := "q", url := "u", title := "t", snippet := "s", date := "d",
          scrapedContent := "raw content", conversationHistory := "" }) :=
  (summarizeURLs_batch_spec _ _).2.1 0 _ rfl rfl

/-- C3 counterexample: a provider response with two identical queries
passes the declared schema and is returned unchanged, so the planner
output is not always distinct. -/
theorem queryRewriter_duplicates_counterexample :
    queryRewriter (.ok { plan := "p", queries := ["same query", "same query"] }) =
      .ok { plan := "p", queries := ["same query", "same query"] } ∧
    ¬ (["same query", "same query"] : List String).Nodup :=
  ⟨rfl, by decide⟩

/-- C3 (amended): every successful queryRewriter return satisfies
1 <= |queries| <= 5, and a response violating the count bound is
rejected as a schema violation instead of being returned; distinctness
is not enforced. -/
theorem queryRewriter_count_bound (raw : Except String PlanResult) :
    (∀ r, queryRewriter raw = .ok r →
      1 ≤ r.queries.length ∧ r.queries.length ≤ 5) ∧
    (∀ r, raw = .ok r → ¬ (1 ≤ r.queries.length ∧ r.queries.length ≤ 5) →
      queryRewriter raw = .error .schemaViolation) := by
  constructor
  · intro r h
    cases raw with
    | error e => simp [queryRewriter, generateObjectPlan] at h
    | ok r0 =>
      by_cases hc : queryRewriterSchemaCheck r0
      · have : r0 = r := by
          simp [queryRewriter, generateObjectPlan, hc] at h
          exact h
        subst this
        simpa [queryRewriterSchemaCheck] using hc
      · simp [queryRewriter, generateObjectPlan, hc] at h
  · intro r h hb
    subst h
    have hc : queryRewriterSchemaCheck r = false := by
      simpa [queryRewriterSchemaCheck, Decidable.not_and_iff_or_not] using hb
    simp [queryRewriter, generateObjectPlan, hc]

/-- Witness for C3: a two-query response is accepted within bounds; a
six-query response is rejected. -/
theorem queryRewriter_count_bound_witness :
    (1 ≤ ({ plan := "p", queries := ["a", "b"] } : PlanResult).queries.length ∧
      ({ plan := "p", queries := ["a", "b"] } : PlanResult).queries.length ≤ 5) ∧
    queryRewriter (.ok { plan := "p", queries := ["a", "b", "c", "d", "e", "f"] }) =
      .error .schemaViolation :=
  ⟨(queryRewriter_count_bound
      (Except.ok { plan := "p", queries := ["a", "b"] })).1 _ rfl,
    (queryRewriter_count_bound
      (Except.ok { plan := "p", queries := ["a", "b", "c", "d", "e", "f"] })).2
      _ rfl (by decide)⟩

/-- The retry loop performs at most fuel further fetch attempts. -/
theorem crawlWebsiteAux_attempts_le (fetch : Nat → AttemptOutcome)
    (maxRetries : Nat) :
    ∀ fuel attempts,
      (crawlWebsiteAux fetch maxRetries fuel attempts).attemptsMade ≤
        attempts + fuel := by
  intro fuel
  induction fuel with
  | zero => intro attempts; simp [crawlWebsiteAux]
  | succ n ih =>
    intro attempts
    simp only [crawlWebsiteAux]
    cases hf : fetch attempts with
    | ok t => simp
    | httpError s st =>
      by_cases h : attempts + 1 = maxRetries
      · simp [h]
        omega
      · have hrec := ih (attempts + 1)
        simp [h]
        omega
    | networkError msg =>
      by_cases h : attempts + 1 = maxRetries
      · simp [h]
        omega
      · have hrec := ih (attempts + 1)
        simp [h]
        omega

/-- Every delay the retry loop sleeps follows the exponential-backoff
formula, counted from the current attempts counter. -/
theorem crawlWebsiteAux_delays (fetch : Nat → AttemptOutcome)
    (maxRetries : Nat) :
    ∀ fuel attempts (i : Nat) (d : Nat),
      (crawlWebsiteAux fetch maxRetries fuel attempts).delays[i]? = some d →
      d = crawlDelay (attempts + i + 1) := by
  intro fuel
  induction fuel with
  | zero => intro attempts i d h; simp [crawlWebsiteAux] at h
  | succ n ih =>
    intro attempts i d h
    simp only [crawlWebsiteAux] at h
    cases hf : fetch attempts with
    | ok t => rw [hf] at h; simp at h
    | httpError s st =>
      rw [hf] at h
      by_cases hm : attempts + 1 = maxRetries
      · simp [hm] at h
      · simp [hm] at h
        cases i with
        | zero =>
          simp at h
          simp [← h]
        | succ j =>
          have := ih (attempts + 1) j d (by simpa using h)
          rw [this]
          congr 1
          omega
    | networkError msg =>
      rw [hf] at h
      by_cases hm : attempts + 1 = maxRetries
      · simp [hm] at h
      · simp [hm] at h
        cases i with
        | zero =>
          simp at h
          simp [← h]
        | succ j =>
          have := ih (attempts + 1) j d (by simpa using h)
          rw [this]
          congr 1
          omega

/-- Unfolding equation for the success flag on a success response. -/
theorem isSuccess_success (d : String) :
    (CrawlResponse.success d).isSuccess = true := rfl

/-- Unfolding equation for the success flag on a failure response. -/
theorem isSuccess_failure (e : String) :
    (CrawlResponse.failure e).isSuccess = false := rfl

/-- The loop treats non-2xx responses and thrown network errors
identically: only which attempts were ok determines the attempt count,
the delays and the success flag. -/
theorem crawlWebsiteAux_isOk_congr (f g : Nat → AttemptOutcome)
    (maxRetries : Nat) (h : ∀ k, (f k).isOk = (g k).isOk) :
    ∀ fuel attempts,
      (crawlWebsiteAux f maxRetries fuel attempts).attemptsMade =
        (crawlWebsiteAux g maxRetries fuel attempts).attemptsMade ∧
      (crawlWebsiteAux f maxRetries fuel attempts).delays =
        (crawlWebsiteAux g maxRetries fuel attempts).delays ∧
      (crawlWebsiteAux f maxRetries fuel attempts).response.isSuccess =
        (crawlWebsiteAux g maxRetries fuel attempts).response.isSuccess := by
  intro fuel
  induction fuel with
  | zero => intro attempts; simp [crawlWebsiteAux]
  | succ n ih =>
    intro attempts
    have hk := h attempts
    simp only [crawlWebsiteAux]
    cases hf : f attempts <;> cases hg : g attempts <;>
      rw [hf, hg] at hk <;> simp only [AttemptOutcome.isOk] at hk
    all_goals
      first
        | exact absurd hk (by decide)
        | (by_cases hm : attempts + 1 = maxRetries <;>
            simp [hm, ih (attempts + 1), isSuccess_success, isSuccess_failure])

/-- When every attempt fails, the loop exhausts maxRetries attempts and
returns a permanent failure whose message contains the attempt count. -/
theorem crawlWebsiteAux_all_fail (fetch : Nat → AttemptOutcome)
    (maxRetries : Nat) (hfail : ∀ k, (fetch k).isOk = false) :
    ∀ fuel attempts, 1 ≤ fuel → fuel + attempts = maxRetries →
      (crawlWebsiteAux fetch maxRetries fuel attempts).attemptsMade =
        maxRetries ∧
      ∃ pre post,
        (crawlWebsiteAux fetch maxRetries fuel attempts).response =
          .failure (pre ++ toString maxRetries ++ post) := by
  intro fuel
  induction fuel with
  | zero => intro attempts h1 h2; omega
  | succ n ih =>
    intro attempts h1 h2
    simp only [crawlWebsiteAux]
    cases hf : fetch attempts with
    | ok t =>
      have := hfail attempts
      rw [hf] at this
      simp [AttemptOutcome.isOk] at this
    | httpError s st =>
      by_cases hm : attempts + 1 = maxRetries
      · constructor
        · simp [hm]
        · refine ⟨"Failed to fetch website after ",
            " attempts: " ++ toString s ++ " " ++ st, ?_⟩
          simp [hm, String.append_assoc]
      · have hn1 : 1 ≤ n := by omega
        have hn2 : n + (attempts + 1) = maxRetries := by omega
        have hrec := ih (attempts + 1) hn1 hn2
        constructor
        · simp [hm, hrec.1]
        · obtain ⟨pre, post, hmsg⟩ := hrec.2
          exact ⟨pre, post, by simp [hm, hmsg]⟩
    | networkError msg =>
      by_cases hm : attempts + 1 = maxRetries
      · constructor
        · simp [hm]
        · refine ⟨"Network error after ", " attempts: " ++ msg, ?_⟩
          simp [hm, String.append_assoc]
      · have hn1 : 1 ≤ n := by omega
        have hn2 : n + (attempts + 1) = maxRetries := by omega
        have hrec := ih (attempts + 1) hn1 hn2
        constructor
        · simp [hm, hrec.1]
        · obtain ⟨pre, post, hmsg⟩ := hrec.2
          exact ⟨pre, post, by simp [hm, hmsg]⟩

/-- C5: crawlWebsite performs at most maxRetries fetch attempts with
exponential backoff (doubling, capped at MAX_DELAY_MS); non-2xx
responses and network errors are retried identically; two failures
followed by a success under maxRetries = 3 succeeds with exactly 3
attempts; and maxRetries consecutive failures yield a permanent failure
whose message mentions the attempt count. -/
theorem crawlWebsite_retry_spec :
    (∀ fetch maxRetries,
      (crawlWebsite fetch maxRetries).attemptsMade ≤ maxRetries) ∧
    (∀ fetch maxRetries (i : Nat) (d : Nat),
      (crawlWebsite fetch maxRetries).delays[i]? = some d →
      d = min (MIN_DELAY_MS * 2 ^ (i + 1)) MAX_DELAY_MS ∧ d ≤ MAX_DELAY_MS) ∧
    (∀ f g maxRetries, (∀ k, (f k).isOk = (g k).isOk) →
      (crawlWebsite f maxRetries).attemptsMade =
        (crawlWebsite g maxRetries).attemptsMade ∧
      (crawlWebsite f maxRetries).delays = (crawlWebsite g maxRetries).delays ∧
      (crawlWebsite f maxRetries).response.isSuccess =
        (crawlWebsite g maxRetries).response.isSuccess) ∧
    ((crawlWebsite
        (fun k => if k < 2 then .networkError "timeout" else .ok "page body")
        DEFAULT_MAX_RETRIES).response = .success "page body" ∧
      (crawlWebsite
        (fun k => if k < 2 then .networkError "timeout" else .ok "page body")
        DEFAULT_MAX_RETRIES).attemptsMade = 3) ∧
    (∀ fetch maxRetries, 1 ≤ maxRetries → (∀ k, (fetch k).isOk = false) →
      (crawlWebsite fetch maxRetries).attemptsMade = maxRetries ∧
      ∃ pre post, (crawlWebsite fetch maxRetries).response =
        .failure (pre ++ toString maxRetries ++ post)) := by
  refine ⟨?_, ?_, ?_, ?_, ?_⟩
  · intro fetch maxRetries
    have := crawlWebsiteAux_attempts_le fetch maxRetries maxRetries 0
    simpa [crawlWebsite] using this
  · intro fetch maxRetries i d h
    have := crawlWebsiteAux_delays fetch maxRetries maxRetries 0 i d h
    constructor
    · simpa [crawlDelay] using this
    · rw [this]
      exact min_le_right _ _
  · intro f g maxRetries h
    exact crawlWebsiteAux_isOk_congr f g maxRetries h maxRetries 0
  · exact ⟨by decide, by decide⟩
  · intro fetch maxRetries h1 hfail
    exact crawlWebsiteAux_all_fail fetch maxRetries hfail maxRetries 0 h1
      (by omega)

/-- Witness for C5: three consecutive network errors under
maxRetries = 3 make exactly 3 attempts and a failure message carrying
the attempt count. -/
theorem crawlWebsite_retry_spec_witness :
    (crawlWebsite (fun _ => AttemptOutcome.networkError "boom") 3).attemptsMade =
      3 ∧
    ∃ pre post,
      (crawlWebsite (fun _ => AttemptOutcome.networkError "boom") 3).response =
        .failure (pre ++ toString 3 ++ post) :=
  crawlWebsite_retry_spec.2.2.2.2 _ 3 (by omega) (fun _ => rfl)

/-- The summarizer input searchAndScrape builds for the i-th search
result: it keeps that result's metadata and pairs it by url with the
scraped pages, falling back to the sentinel "Failed to scrape content". -/
theorem searchAndScrapeInputs_get (hostname : String → String)
    (crawl : String → CrawlResponse) (query conversationHistory : String)
    (organic : List OrganicResult) (i : Nat) (r : OrganicResult)
    (h : organic[i]? = some r) :
    (searchAndScrapeInputs hostname crawl query conversationHistory organic)[i]? =
      some
        { query := query, url := r.link, title := r.title, snippet := r.snippet,
          date := r.date.getD "Unknown date",
          scrapedContent :=
            (((scrapeUrl crawl
                ((formatSearchResults hostname organic).map
                  FormattedResult.link)).lookupList.find?
                fun p => p.url == r.link).map ScrapePage.content).getD
              "Failed to scrape content",
          conversationHistory := conversationHistory } := by
  unfold searchAndScrapeInputs buildSummarizeInputs combineResults
    formatSearchResults
  simp only [List.map_map, List.getElem?_map, h, Option.map_some]
  rfl

/-- C7 counterexample: for a search result whose url fails to scrape,
the scraped content handed to the summarizer is the string
"Failed to scrape content", not the sentinel "content unavailable"
named by the claim. -/
theorem searchAndScrape_sentinel_counterexample :
    (searchAndScrapeInputs (fun _ => "a.example")
        (fun _ => CrawlResponse.failure "404 Not Found") "q" ""
        [{ title := "t", link := "http://a", snippet := "s", date := none }]).map
      (fun inp => inp.scrapedContent) = ["Failed to scrape content"] ∧
    "Failed to scrape content" ≠ "content unavailable" := by
  refine ⟨rfl, by decide⟩

/-- C7 (amended): each search result is paired with its scraped content
by url, and every url that failed to scrape gets the fixed sentinel
string "Failed to scrape content" as the scraped content passed to the
summarizer input for that result. -/
theorem searchAndScrape_sentinel (hostname : String → String)
    (crawl : String → CrawlResponse) (query conversationHistory : String)
    (organic : List OrganicResult) :
    ∀ (i : Nat) (r : OrganicResult), organic[i]? = some r →
      ∃ inp,
        (searchAndScrapeInputs hostname crawl query conversationHistory
          organic)[i]? = some inp ∧
        inp.url = r.link ∧
        inp.scrapedContent =
          (((scrapeUrl crawl
              ((formatSearchResults hostname organic).map
                FormattedResult.link)).lookupList.find?
              fun p => p.url == r.link).map ScrapePage.content).getD
            "Failed to scrape content" ∧
        (((scrapeUrl crawl
            ((formatSearchResults hostname organic).map
              FormattedResult.link)).lookupList.find?
            fun p => p.url == r.link) = none →
          inp.scrapedContent = "Failed to scrape content") := by
  intro i r h
  refine ⟨_, searchAndScrapeInputs_get hostname crawl query
    conversationHistory organic i r h, rfl, rfl, ?_⟩
  intro hnone
  simp [hnone]

/-- Witness for C7 (amended): a concrete single-result search whose
only url fails to scrape receives the sentinel. -/
theorem searchAndScrape_sentinel_witness :
    ∃ inp,
      (searchAndScrapeInputs (fun _ => "a.example")
        (fun _ => CrawlResponse.failure "404 Not Found") "q" ""
        [{ title := "t", link := "http://a", snippet := "s", date := none }])[0]? =
        some inp ∧
      inp.url = "http://a" ∧
      inp.scrapedContent =
        (((scrapeUrl (fun _ => CrawlResponse.failure "404 Not Found")
            ((formatSearchResults (fun _ => "a.example")
              [{ title := "t", link := "http://a", snippet := "s",
                 date := none }]).map FormattedResult.link)).lookupList.find?
            fun p => p.url == "http://a").map ScrapePage.content).getD
          "Failed to scrape content" ∧
      (((scrapeUrl (fun _ => CrawlResponse.failure "404 Not Found")
          ((formatSearchResults (fun _ => "a.example")
            [{ title := "t", link := "http://a", snippet := "s",
               date := none }]).map FormattedResult.link)).lookupList.find?
          fun p => p.url == "http://a") = none →
        inp.scrapedContent = "Failed to scrape content") :=
  searchAndScrape_sentinel (fun _ => "a.example")
    (fun _ => CrawlResponse.failure "404 Not Found") "q" ""
    [{ title := "t", link := "http://a", snippet := "s", date := none }] 0
    { title := "t", link := "http://a", snippet := "s", date := none } rfl

/-- The result the summarizer batch produces for the i-th input keeps
that input's metadata. -/
theorem summarizeURLs_get_metadata (summarize : SummarizeUrlInput → Option String)
    (inputs : List SummarizeUrlInput) (i : Nat) (inp : SummarizeUrlInput)
    (h : inputs[i]? = some inp) :
    ∃ s, (summarizeURLs summarize inputs)[i]? = some s ∧
      s.url = inp.url ∧ s.title = inp.title ∧ s.date = inp.date ∧
      s.snippet = inp.snippet := by
  refine ⟨summarizeOne summarize inp, ?_, ?_, ?_, ?_, ?_⟩
  · simp [summarizeURLs, List.getElem?_map, h]
  all_goals
    cases hs : summarize inp <;> simp [summarizeOne, hs, fallbackSummary]

/-- C9: within one SearchRecord produced by searchAndScrape, the
results keep the search provider's order and multiplicities: the i-th
result carries the i-th provider result's url, title, snippet and
(defaulted) date, and the record has exactly one result per provider
result, so no de-duplication happens inside a record. -/
theorem searchAndScrape_order_preserved (hostname : String → String)
    (crawl : String → CrawlResponse)
    (summarize : SummarizeUrlInput → Option String)
    (query conversationHistory : String) (organic : List OrganicResult) :
    (searchAndScrape hostname crawl summarize query conversationHistory
      organic).results.length = organic.length ∧
    ∀ (i : Nat) (r : OrganicResult), organic[i]? = some r →
      ∃ item,
        (searchAndScrape hostname crawl summarize query conversationHistory
          organic).results[i]? = some item ∧
        item.url = r.link ∧ item.title = r.title ∧ item.snippet = r.snippet ∧
        item.date = r.date.getD "Unknown date" := by
  constructor
  · simp [searchAndScrape, summarizeURLs, searchAndScrapeInputs,
      buildSummarizeInputs, combineResults, formatSearchResults]
  · intro i r h
    have hinp := searchAndScrapeInputs_get hostname crawl query
      conversationHistory organic i r h
    obtain ⟨s, hs, hurl, htitle, hdate, hsnip⟩ :=
      summarizeURLs_get_metadata summarize _ i _ hinp
    refine ⟨{ date := s.date, title := s.title, url := s.url,
              snippet := s.snippet, summary := s.summary,
              favicon := faviconFor hostname s.url }, ?_, ?_, ?_, ?_, ?_⟩
    · simp only [searchAndScrape, List.getElem?_map, hs, Option.map_some]
      rfl
    · simpa using hurl
    · simpa using htitle
    · simpa using hsnip
    · simpa using hdate

/-- Witness for C9: a two-result search with duplicate urls keeps both
entries in provider order. -/
theorem searchAndScrape_order_preserved_witness :
    (searchAndScrape (fun _ => "a.example")
      (fun _ => CrawlResponse.success "body") (fun _ => none) "q" ""
      [{ title := "t1", link := "http://a", snippet := "s1", date := none },
       { title := "t2", link := "http://a", snippet := "s2",
         date := some "2024-01-01" }]).results.length = 2 ∧
    ∃ item,
      (searchAndScrape (fun _ => "a.example")
        (fun _ => CrawlResponse.success "body") (fun _ => none) "q" ""
        [{ title := "t1", link := "http://a", snippet := "s1", date := none },
         { title := "t2", link := "http://a", snippet := "s2",
           date := some "2024-01-01" }]).results[1]? = some item ∧
      item.url = "http://a" ∧ item.title = "t2" ∧ item.snippet = "s2" ∧
      item.date = (some "2024-01-01").getD "Unknown date" :=
  ⟨(searchAndScrape_order_preserved _ _ _ _ _ _).1,
    (searchAndScrape_order_preserved (fun _ => "a.example")
      (fun _ => CrawlResponse.success "body") (fun _ => none) "q" ""
      [{ title := "t1", link := "http://a", snippet := "s1", date := none },
       { title := "t2", link := "http://a", snippet := "s2",
         date := some "2024-01-01" }]).2 1
      { title := "t2", link := "http://a", snippet := "s2",
        date := some "2024-01-01" } rfl⟩

/-- Folding reportSearch over a record list appends the list to the
search history and leaves the step untouched. -/
theorem foldl_reportSearch (l : List SearchRecord) :
    ∀ ctx : SystemContext,
      (l.foldl SystemContext.reportSearch ctx).searchHistory =
        ctx.searchHistory ++ l ∧
      (l.foldl SystemContext.reportSearch ctx).step = ctx.step := by
  induction l with
  | nil => intro ctx; simp
  | cons a t ih =>
    intro ctx
    have := ih (ctx.reportSearch a)
    simpa [SystemContext.reportSearch] using this

/-- Except.toOption recovers ok values exactly. -/
theorem except_toOption_eq_some (e : Except String SearchRecord)
    (r : SearchRecord) : e.toOption = some r ↔ e = .ok r := by
  cases e <;> simp [Except.toOption]

/-- C8: one planning round settles every query branch, appends exactly
the successful per-query records to the search history, in the order
settled, and drops the failed ones without disturbing the others. -/
theorem agentRound_settle_all (plan : PlanResult)
    (pipeline : String → Except String SearchRecord) (ctx : SystemContext) :
    (plan.queries.map pipeline).length = plan.queries.length ∧
    (agentRound plan pipeline ctx).searchHistory =
      ctx.searchHistory ++
        plan.queries.filterMap (fun q => (pipeline q).toOption) ∧
    (∀ q r, q ∈ plan.queries → pipeline q = .ok r →
      r ∈ (agentRound plan pipeline ctx).searchHistory) ∧
    (∀ r, r ∈ (agentRound plan pipeline ctx).searchHistory →
      r ∈ ctx.searchHistory ∨ ∃ q ∈ plan.queries, pipeline q = .ok r) := by
  have hhist : (agentRound plan pipeline ctx).searchHistory =
      ctx.searchHistory ++
        plan.queries.filterMap (fun q => (pipeline q).toOption) := by
    unfold agentRound
    rw [(foldl_reportSearch _ ctx).1, List.filterMap_map]
    rfl
  refine ⟨by simp, hhist, ?_, ?_⟩
  · intro q r hq hok
    rw [hhist]
    refine List.mem_append_right _ ?_
    exact List.mem_filterMap.2 ⟨q, hq, by simp [hok, Except.toOption]⟩
  · intro r hr
    rw [hhist] at hr
    rcases List.mem_append.1 hr with hl | hrr
    · exact Or.inl hl
    · obtain ⟨q, hq, hsome⟩ := List.mem_filterMap.1 hrr
      exact Or.inr ⟨q, hq, (except_toOption_eq_some _ _).1 hsome⟩

/-- Witness for C8: of two queries, one failing pipeline is dropped
while the other query's record is still appended. -/
theorem agentRound_settle_all_witness :
    (agentRound { plan := "p", queries := ["q1", "q2"] }
      (fun q => if q == "q1" then .error "boom"
        else .ok { query := "q2", results := [] })
      { step := 0, searchHistory := [], messages := [], userLocation := none,
        mostRecentFeedback := none }).searchHistory =
      [] ++ (["q1", "q2"].filterMap fun q =>
        ((fun q => if q == "q1" then Except.error "boom"
          else Except.ok { query := "q2", results := [] }) q).toOption) ∧
    ({ query := "q2", results := [] } : SearchRecord) ∈
      (agentRound { plan := "p", queries := ["q1", "q2"] }
        (fun q => if q == "q1" then .error "boom"
          else .ok { query := "q2", results := [] })
        { step := 0, searchHistory := [], messages := [], userLocation := none,
          mostRecentFeedback := none }).searchHistory :=
  ⟨(agentRound_settle_all _ _ _).2.1,
    (agentRound_settle_all _ _ _).2.2.1 "q2" _ (by decide) rfl⟩

/-- updateFeedback does not change the step counter. -/
theorem updateFeedback_step (ctx : SystemContext) (f : String) :
    (ctx.updateFeedback f).step = ctx.step := rfl

/-- A planning round does not change the step counter. -/
theorem agentRound_step (plan : PlanResult)
    (pipeline : String → Except String SearchRecord) (ctx : SystemContext) :
    (agentRound plan pipeline ctx).step = ctx.step := by
  unfold agentRound
  exact (foldl_reportSearch _ ctx).2

/-- The loop body executes at most 10 - step further iterations. -/
theorem runAgentLoopAux_iterations_le (plan : Nat → PlanResult)
    (pipeline : Nat → String → Except String SearchRecord)
    (decider : Nat → Decision) :
    ∀ fuel (ctx : SystemContext) (iters : Nat),
      (runAgentLoopAux plan pipeline decider fuel ctx iters).iterations ≤
        iters + (10 - ctx.step) := by
  intro fuel
  induction fuel with
  | zero => intro ctx iters; simp [runAgentLoopAux]
  | succ n ih =>
    intro ctx iters
    simp only [runAgentLoopAux]
    by_cases hs : ctx.shouldStop
    · simp [hs]
    · have hlt : ctx.step < 10 := by
        simpa [SystemContext.shouldStop] using hs
      simp only [hs, if_false, Bool.false_eq_true]
      by_cases hd : (decider ctx.step).decision = DecisionVerdict.answer
      · simp [hd]
        omega
      · have hrec := ih (((agentRound (plan ctx.step) (pipeline ctx.step)
          ctx).updateFeedback (decider ctx.step).feedback).incrementStep)
          (iters + 1)
        have hstep : (((agentRound (plan ctx.step) (pipeline ctx.step)
            ctx).updateFeedback
            (decider ctx.step).feedback).incrementStep).step =
            ctx.step + 1 := by
          simp [SystemContext.incrementStep, updateFeedback_step,
            agentRound_step]
        rw [hstep] at hrec
        simp only [hd, if_false]
        omega

/-- C2: the agent loop performs at most 10 non-final iterations
(at most 10 - step from any seeded step) before answerQuestion is
invoked, and a context already at step 10 makes the very next
shouldStop check call answerQuestion with isFinal = true, with zero
further iterations, for every decision oracle. -/
theorem runAgentLoop_step_limit (plan : Nat → PlanResult)
    (pipeline : Nat → String → Except String SearchRecord)
    (decider : Nat → Decision) :
    (∀ ctx : SystemContext, ctx.step = 0 →
      (runAgentLoop plan pipeline decider ctx).iterations ≤ 10) ∧
    (∀ ctx : SystemContext,
      (runAgentLoop plan pipeline decider ctx).iterations ≤ 10 - ctx.step) ∧
    (∀ ctx : SystemContext, ctx.step = 10 →
      (runAgentLoop plan pipeline decider ctx).iterations = 0 ∧
      (runAgentLoop plan pipeline decider ctx).answer.isFinal = true ∧
      (runAgentLoop plan pipeline decider ctx).answer.ctx = ctx) := by
  have hb : ∀ ctx : SystemContext,
      (runAgentLoop plan pipeline decider ctx).iterations ≤ 10 - ctx.step := by
    intro ctx
    have := runAgentLoopAux_iterations_le plan pipeline decider
      (10 - ctx.step + 1) ctx 0
    simpa [runAgentLoop] using this
  refine ⟨?_, hb, ?_⟩
  · intro ctx h
    have := hb ctx
    omega
  · intro ctx h
    have hstop : ctx.shouldStop = true := by
      simp [SystemContext.shouldStop, h]
    refine ⟨?_, ?_, ?_⟩ <;>
      simp [runAgentLoop, runAgentLoopAux, hstop, h]

/-- Witness for C2: with step seeded to 10, the loop immediately calls
the final answer, even under an always-continue decider and a failing
pipeline oracle. -/
theorem runAgentLoop_step_limit_witness :
    (runAgentLoop (fun _ => { plan := "", queries := ["q"] })
      (fun _ _ => .error "down")
      (fun _ => { decision := .cont, reasoning := "", feedback := "" })
      { step := 10, searchHistory := [], messages := [], userLocation := none,
        mostRecentFeedback := none }).iterations = 0 ∧
    (runAgentLoop (fun _ => { plan := "", queries := ["q"] })
      (fun _ _ => .error "down")
      (fun _ => { decision := .cont, reasoning := "", feedback := "" })
      { step := 10, searchHistory := [], messages := [], userLocation := none,
        mostRecentFeedback := none }).answer.isFinal = true ∧
    (runAgentLoop (fun _ => { plan := "", queries := ["q"] })
      (fun _ _ => .error "down")
      (fun _ => { decision := .cont, reasoning := "", feedback := "" })
      { step := 0, searchHistory := [], messages := [], userLocation := none,
        mostRecentFeedback := none }).iterations ≤ 10 := by
  refine ⟨?_, ?_, ?_⟩
  · exact ((runAgentLoop_step_limit _ _ _).2.2 _ rfl).1
  · exact ((runAgentLoop_step_limit _ _ _).2.2 _ rfl).2.1
  · exact (runAgentLoop_step_limit _ _ _).1 _ rfl

end DeepSearch
